import Mathlib

/-!
Verification of `ocs2::SystemOperatingPoint` from
`src/summer_school_private/ocs2_dev/ocs2_core/include/ocs2_core/initialization/SystemOperatingPoint.h`.

The class is a template over compile-time dimensions `STATE_DIM` and `INPUT_DIM`;
scalars are modelled as rationals (the method performs no arithmetic on them, it
only copies values), and the fixed-size Eigen vectors as functions `Fin n → ℚ`.
The three caller-owned output containers (`std::vector`s) are modelled as lists,
and the mutating member function `getSystemOperatingTrajectories` as a function
returning the post-call object value together with the post-call contents of the
three containers.
-/

namespace OCS2

/-- `scalar_t` of the source (`double` there; no arithmetic is performed on it
by this class, only copies and, in specifications, order comparisons). -/
abbrev scalar_t : Type := Rat

/-- `state_vector_t`: fixed-size state vector of dimension `S`. -/
abbrev state_vector_t (S : Nat) : Type := Fin S → Rat

/-- `input_vector_t`: fixed-size input vector of dimension `I`. -/
abbrev input_vector_t (I : Nat) : Type := Fin I → Rat

/-- `scalar_array_t`: dynamic array of scalars. -/
abbrev scalar_array_t : Type := List scalar_t

/-- `state_vector_array_t`: dynamic array of state vectors. -/
abbrev state_vector_array_t (S : Nat) : Type := List (state_vector_t S)

/-- `input_vector_array_t`: dynamic array of input vectors. -/
abbrev input_vector_array_t (I : Nat) : Type := List (input_vector_t I)

/-- Modelled from the spec: the mode-switch lookup (`LogicRulesMachine`), whose
header is not under src/. The spec treats it as an externally owned
time-to-active-subsystem mapping that this class only stores a handle to and,
in the constant-point variant, never invokes; an opaque-to-this-class value
with an identifier suffices for the claims. -/
structure LogicRulesMachine where
  machineId : Nat
deriving DecidableEq

/-- The state of a `SystemOperatingPoint<STATE_DIM, INPUT_DIM, LOGIC_RULES_T>`
object: its two protected members `stateOperatingPoint_` and
`inputOperatingPoint_` (lines 150-151 of the header), plus the binding state
inherited from `SystemOperatingTrajectoriesBase` (modelled from the spec, see
`baseInitializeModel`). -/
structure SystemOperatingPoint (S I : Nat) where
  stateOperatingPoint_ : state_vector_t S
  inputOperatingPoint_ : input_vector_t I
  boundLogicRules : Option LogicRulesMachine
  boundPartitionIndex : Option Nat

/-- The two-argument constructor (lines 73-76): stores the given operating
point values; no binding has happened yet. -/
def SystemOperatingPoint.mkOperatingPoint {S I : Nat}
    (stateOperatingPoint : state_vector_t S) (inputOperatingPoint : input_vector_t I) :
    SystemOperatingPoint S I :=
  { stateOperatingPoint_ := stateOperatingPoint
    inputOperatingPoint_ := inputOperatingPoint
    boundLogicRules := none
    boundPartitionIndex := none }

/-- The default constructor (lines 66-68): delegates to the two-argument
constructor with `state_vector_t::Zero()` and `input_vector_t::Zero()`. -/
def SystemOperatingPoint.mkDefault (S I : Nat) : SystemOperatingPoint S I :=
  SystemOperatingPoint.mkOperatingPoint (fun _ => 0) (fun _ => 0)

/-- Modelled from the spec: `SystemOperatingTrajectoriesBase::initializeModel`
lives in `SystemOperatingTrajectoriesBase.h`, which is not under src/. Per the
spec, bind "stores the lookup reference and partition index" and "re-binding to
a new partition/lookup is legal and simply overwrites prior binding"; the
`algorithmNameHint` is only a hint and affects no claim. -/
def baseInitializeModel {S I : Nat} (self : SystemOperatingPoint S I)
    (logicRulesMachine : LogicRulesMachine) (partitionIndex : Nat)
    (algorithmName : Option String) : SystemOperatingPoint S I :=
  let _ := algorithmName
  { self with
    boundLogicRules := some logicRulesMachine
    boundPartitionIndex := some partitionIndex }

/-- `SystemOperatingPoint::initializeModel` (lines 92-98): delegates to
`Base::initializeModel` and does nothing else. -/
def SystemOperatingPoint.initializeModel {S I : Nat} (self : SystemOperatingPoint S I)
    (logicRulesMachine : LogicRulesMachine) (partitionIndex : Nat)
    (algorithmName : Option String) : SystemOperatingPoint S I :=
  baseInitializeModel self logicRulesMachine partitionIndex algorithmName

/-- `SystemOperatingPoint::clone` (lines 105-108): `new SystemOperatingPoint(*this)`,
the compiler-generated copy constructor, i.e. a member-wise copy of the whole
object value into freshly owned storage. In a value semantics model the copied
value is the value itself. -/
def SystemOperatingPoint.clone {S I : Nat} (self : SystemOperatingPoint S I) :
    SystemOperatingPoint S I :=
  self

/-- The post-call data of `getSystemOperatingTrajectories`: the object value
after the call (the body writes no member, so it is returned unchanged) and
the post-call contents of the three caller-owned output containers. -/
structure TrajectoriesResult (S I : Nat) where
  self : SystemOperatingPoint S I
  timeTrajectory : scalar_array_t
  stateTrajectory : state_vector_array_t S
  inputTrajectory : input_vector_array_t I

/-- `SystemOperatingPoint::getSystemOperatingTrajectories` (lines 123-146):
if `concatOutput == false` the three containers are cleared; then
`startTime`, `finalTime` are appended to the time trajectory, two copies of
`stateOperatingPoint_` to the state trajectory and two copies of
`inputOperatingPoint_` to the input trajectory. `initialState` is read by no
statement of the body. -/
def SystemOperatingPoint.getSystemOperatingTrajectories {S I : Nat}
    (self : SystemOperatingPoint S I)
    (initialState : state_vector_t S)
    (startTime finalTime : scalar_t)
    (timeTrajectory : scalar_array_t)
    (stateTrajectory : state_vector_array_t S)
    (inputTrajectory : input_vector_array_t I)
    (concatOutput : Bool) : TrajectoriesResult S I :=
  let _ := initialState
  let timeTrajectory := if concatOutput = false then [] else timeTrajectory
  let stateTrajectory := if concatOutput = false then [] else stateTrajectory
  let inputTrajectory := if concatOutput = false then [] else inputTrajectory
  { self := self
    timeTrajectory := timeTrajectory ++ [startTime, finalTime]
    stateTrajectory :=
      stateTrajectory ++ [self.stateOperatingPoint_, self.stateOperatingPoint_]
    inputTrajectory :=
      inputTrajectory ++ [self.inputOperatingPoint_, self.inputOperatingPoint_] }

/-- Concrete example operating-point state from the spec's example section:
dimension 2, value `(1.0, -1.0)`. -/
def exState : state_vector_t 2 := fun j => if j.val = 0 then 1 else -1

/-- Concrete example operating-point input from the spec's example section:
dimension 1, value `(0.5)`. -/
def exInput : input_vector_t 1 := fun _ => (0.5 : Rat)

/-- Concrete example provider instance holding `exState` and `exInput`. -/
def exPoint : SystemOperatingPoint 2 1 :=
  SystemOperatingPoint.mkOperatingPoint exState exInput

/-- A concrete example mode-switch lookup value. -/
def exMachine : LogicRulesMachine := { machineId := 7 }

end OCS2

namespace OCS2

/-- Claim C1: for every `startTime ≤ finalTime`, every operating point and
every prior contents of the three output containers, a call with
`concatOutput = false` leaves the three output sequences each of length
exactly 2, the time sequence equal to `[startTime, finalTime]`, both state
samples equal to the state operating point and both input samples equal to the
input operating point. -/
theorem C1_overwrite_two_samples {S I : Nat} (pt : SystemOperatingPoint S I)
    (initialState : state_vector_t S) (startTime finalTime : scalar_t)
    (tT : scalar_array_t) (sT : state_vector_array_t S) (iT : input_vector_array_t I)
    (h : startTime ≤ finalTime) :
    (pt.getSystemOperatingTrajectories initialState startTime finalTime tT sT iT
        false).timeTrajectory = [startTime, finalTime] ∧
    (pt.getSystemOperatingTrajectories initialState startTime finalTime tT sT iT
        false).stateTrajectory = [pt.stateOperatingPoint_, pt.stateOperatingPoint_] ∧
    (pt.getSystemOperatingTrajectories initialState startTime finalTime tT sT iT
        false).inputTrajectory = [pt.inputOperatingPoint_, pt.inputOperatingPoint_] ∧
    (pt.getSystemOperatingTrajectories initialState startTime finalTime tT sT iT
        false).timeTrajectory.length = 2 ∧
    (pt.getSystemOperatingTrajectories initialState startTime finalTime tT sT iT
        false).stateTrajectory.length = 2 ∧
    (pt.getSystemOperatingTrajectories initialState startTime finalTime tT sT iT
        false).inputTrajectory.length = 2 := by
  refine ⟨rfl, rfl, rfl, rfl, rfl, rfl⟩

/-- Witness for C1 at the spec's example: operating point `((1,-1),(0.5))`,
interval `[0, 2]`, nonempty prior container contents. -/
theorem C1_overwrite_two_samples_witness :
    (0 : scalar_t) ≤ 2 ∧
    ((exPoint.getSystemOperatingTrajectories exState 0 2 [9] [exState] [exInput]
        false).timeTrajectory = [0, 2] ∧
     (exPoint.getSystemOperatingTrajectories exState 0 2 [9] [exState] [exInput]
        false).stateTrajectory = [exPoint.stateOperatingPoint_, exPoint.stateOperatingPoint_] ∧
     (exPoint.getSystemOperatingTrajectories exState 0 2 [9] [exState] [exInput]
        false).inputTrajectory = [exPoint.inputOperatingPoint_, exPoint.inputOperatingPoint_] ∧
     (exPoint.getSystemOperatingTrajectories exState 0 2 [9] [exState] [exInput]
        false).timeTrajectory.length = 2 ∧
     (exPoint.getSystemOperatingTrajectories exState 0 2 [9] [exState] [exInput]
        false).stateTrajectory.length = 2 ∧
     (exPoint.getSystemOperatingTrajectories exState 0 2 [9] [exState] [exInput]
        false).inputTrajectory.length = 2) :=
  ⟨by norm_num,
   C1_overwrite_two_samples exPoint exState 0 2 [9] [exState] [exInput] (by norm_num)⟩

/-- Claim C2: two runs on instances with the same operating-point values and
the same `startTime`, `finalTime`, `concatOutput` and prior container contents
produce identical output sequences, regardless of the `initialState` argument
and regardless of whether (or with which lookup/partition) either instance was
bound via `initializeModel`; the mode-switch lookup is never consulted. -/
theorem C2_output_ignores_initial_state_and_binding {S I : Nat}
    (pt₁ pt₂ : SystemOperatingPoint S I)
    (hs : pt₁.stateOperatingPoint_ = pt₂.stateOperatingPoint_)
    (hi : pt₁.inputOperatingPoint_ = pt₂.inputOperatingPoint_)
    (initialState₁ initialState₂ : state_vector_t S)
    (lrm : LogicRulesMachine) (pIdx : Nat) (algName : Option String)
    (startTime finalTime : scalar_t)
    (tT : scalar_array_t) (sT : state_vector_array_t S) (iT : input_vector_array_t I)
    (concatOutput : Bool) :
    ((pt₁.initializeModel lrm pIdx algName).getSystemOperatingTrajectories
        initialState₁ startTime finalTime tT sT iT concatOutput).timeTrajectory =
      (pt₂.getSystemOperatingTrajectories
        initialState₂ startTime finalTime tT sT iT concatOutput).timeTrajectory ∧
    ((pt₁.initializeModel lrm pIdx algName).getSystemOperatingTrajectories
        initialState₁ startTime finalTime tT sT iT concatOutput).stateTrajectory =
      (pt₂.getSystemOperatingTrajectories
        initialState₂ startTime finalTime tT sT iT concatOutput).stateTrajectory ∧
    ((pt₁.initializeModel lrm pIdx algName).getSystemOperatingTrajectories
        initialState₁ startTime finalTime tT sT iT concatOutput).inputTrajectory =
      (pt₂.getSystemOperatingTrajectories
        initialState₂ startTime finalTime tT sT iT concatOutput).inputTrajectory := by
  refine ⟨rfl, ?_, ?_⟩ <;>
    simp [SystemOperatingPoint.getSystemOperatingTrajectories,
      SystemOperatingPoint.initializeModel, baseInitializeModel, hs, hi]

/-- Witness for C2: one bound copy of the example instance versus an unbound
one, with distinct `initialState` arguments. -/
theorem C2_output_ignores_initial_state_and_binding_witness :
    exPoint.stateOperatingPoint_ = exPoint.stateOperatingPoint_ ∧
    exPoint.inputOperatingPoint_ = exPoint.inputOperatingPoint_ ∧
    (((exPoint.initializeModel exMachine 3 (some "SLQ")).getSystemOperatingTrajectories
        exState 0 2 [9] [exState] [exInput] true).timeTrajectory =
      (exPoint.getSystemOperatingTrajectories
        (fun _ => 4) 0 2 [9] [exState] [exInput] true).timeTrajectory ∧
     ((exPoint.initializeModel exMachine 3 (some "SLQ")).getSystemOperatingTrajectories
        exState 0 2 [9] [exState] [exInput] true).stateTrajectory =
      (exPoint.getSystemOperatingTrajectories
        (fun _ => 4) 0 2 [9] [exState] [exInput] true).stateTrajectory ∧
     ((exPoint.initializeModel exMachine 3 (some "SLQ")).getSystemOperatingTrajectories
        exState 0 2 [9] [exState] [exInput] true).inputTrajectory =
      (exPoint.getSystemOperatingTrajectories
        (fun _ => 4) 0 2 [9] [exState] [exInput] true).inputTrajectory) :=
  ⟨rfl, rfl,
   C2_output_ignores_initial_state_and_binding exPoint exPoint rfl rfl
     exState (fun _ => 4) exMachine 3 (some "SLQ") 0 2 [9] [exState] [exInput] true⟩

/-- Claim C3: with `concatOutput = true` the call appends exactly 2 new samples
to each of the three sequences and leaves every previously present element
unchanged in value and position (the prior contents are a prefix of the
result); with `concatOutput = false` the sequences are cleared before the new
samples are appended. -/
theorem C3_concat_appends_preserving_prefix {S I : Nat} (pt : SystemOperatingPoint S I)
    (initialState : state_vector_t S) (startTime finalTime : scalar_t)
    (tT : scalar_array_t) (sT : state_vector_array_t S) (iT : input_vector_array_t I) :
    ((pt.getSystemOperatingTrajectories initialState startTime finalTime tT sT iT
        true).timeTrajectory = tT ++ [startTime, finalTime] ∧
     (pt.getSystemOperatingTrajectories initialState startTime finalTime tT sT iT
        true).stateTrajectory = sT ++ [pt.stateOperatingPoint_, pt.stateOperatingPoint_] ∧
     (pt.getSystemOperatingTrajectories initialState startTime finalTime tT sT iT
        true).inputTrajectory = iT ++ [pt.inputOperatingPoint_, pt.inputOperatingPoint_] ∧
     (pt.getSystemOperatingTrajectories initialState startTime finalTime tT sT iT
        true).timeTrajectory.length = tT.length + 2 ∧
     (pt.getSystemOperatingTrajectories initialState startTime finalTime tT sT iT
        true).stateTrajectory.length = sT.length + 2 ∧
     (pt.getSystemOperatingTrajectories initialState startTime finalTime tT sT iT
        true).inputTrajectory.length = iT.length + 2) ∧
    ((pt.getSystemOperatingTrajectories initialState startTime finalTime tT sT iT
        false).timeTrajectory = [startTime, finalTime] ∧
     (pt.getSystemOperatingTrajectories initialState startTime finalTime tT sT iT
        false).stateTrajectory = [pt.stateOperatingPoint_, pt.stateOperatingPoint_] ∧
     (pt.getSystemOperatingTrajectories initialState startTime finalTime tT sT iT
        false).inputTrajectory = [pt.inputOperatingPoint_, pt.inputOperatingPoint_]) := by
  refine ⟨⟨rfl, rfl, rfl, ?_, ?_, ?_⟩, rfl, rfl, rfl⟩ <;>
    simp [SystemOperatingPoint.getSystemOperatingTrajectories]

/-- Claim C4: two successive calls on the same instance with identical
arguments and `concatOutput = false` yield identical output sequences: the
second call (run on the object and containers as left by the first call)
reproduces the first call's post-state of the containers. -/
theorem C4_idempotent_overwrite {S I : Nat} (pt : SystemOperatingPoint S I)
    (initialState : state_vector_t S) (startTime finalTime : scalar_t)
    (tT : scalar_array_t) (sT : state_vector_array_t S) (iT : input_vector_array_t I) :
    ((pt.getSystemOperatingTrajectories initialState startTime finalTime tT sT iT
        false).self.getSystemOperatingTrajectories initialState startTime finalTime
       (pt.getSystemOperatingTrajectories initialState startTime finalTime tT sT iT
          false).timeTrajectory
       (pt.getSystemOperatingTrajectories initialState startTime finalTime tT sT iT
          false).stateTrajectory
       (pt.getSystemOperatingTrajectories initialState startTime finalTime tT sT iT
          false).inputTrajectory
       false) =
    pt.getSystemOperatingTrajectories initialState startTime finalTime tT sT iT false :=
  rfl

/-- Claim C5: `clone` yields an instance whose `stateOperatingPoint_` and
`inputOperatingPoint_` equal the source's, stored independently: re-binding
the clone leaves the original's trajectory output unchanged, and re-binding
the original leaves the clone's trajectory output unchanged, for identical
subsequent calls. -/
theorem C5_clone_copies_and_is_independent {S I : Nat} (pt : SystemOperatingPoint S I)
    (lrm : LogicRulesMachine) (pIdx : Nat) (algName : Option String)
    (initialState : state_vector_t S) (startTime finalTime : scalar_t)
    (tT : scalar_array_t) (sT : state_vector_array_t S) (iT : input_vector_array_t I)
    (concatOutput : Bool) :
    pt.clone.stateOperatingPoint_ = pt.stateOperatingPoint_ ∧
    pt.clone.inputOperatingPoint_ = pt.inputOperatingPoint_ ∧
    ((pt.clone.initializeModel lrm pIdx algName).getSystemOperatingTrajectories
        initialState startTime finalTime tT sT iT concatOutput).timeTrajectory =
      (pt.getSystemOperatingTrajectories
        initialState startTime finalTime tT sT iT concatOutput).timeTrajectory ∧
    ((pt.clone.initializeModel lrm pIdx algName).getSystemOperatingTrajectories
        initialState startTime finalTime tT sT iT concatOutput).stateTrajectory =
      (pt.getSystemOperatingTrajectories
        initialState startTime finalTime tT sT iT concatOutput).stateTrajectory ∧
    ((pt.clone.initializeModel lrm pIdx algName).getSystemOperatingTrajectories
        initialState startTime finalTime tT sT iT concatOutput).inputTrajectory =
      (pt.getSystemOperatingTrajectories
        initialState startTime finalTime tT sT iT concatOutput).inputTrajectory ∧
    ((pt.initializeModel lrm pIdx algName).getSystemOperatingTrajectories
        initialState startTime finalTime tT sT iT concatOutput).timeTrajectory =
      (pt.clone.getSystemOperatingTrajectories
        initialState startTime finalTime tT sT iT concatOutput).timeTrajectory ∧
    ((pt.initializeModel lrm pIdx algName).getSystemOperatingTrajectories
        initialState startTime finalTime tT sT iT concatOutput).stateTrajectory =
      (pt.clone.getSystemOperatingTrajectories
        initialState startTime finalTime tT sT iT concatOutput).stateTrajectory ∧
    ((pt.initializeModel lrm pIdx algName).getSystemOperatingTrajectories
        initialState startTime finalTime tT sT iT concatOutput).inputTrajectory =
      (pt.clone.getSystemOperatingTrajectories
        initialState startTime finalTime tT sT iT concatOutput).inputTrajectory :=
  ⟨rfl, rfl, rfl, rfl, rfl, rfl, rfl, rfl⟩

/-- Claim C6: a default-constructed instance behaves identically to one
explicitly constructed with the all-zero state and input vectors: the two
object values are equal, hence `getSystemOperatingTrajectories` produces the
same output on both for every argument list. -/
theorem C6_default_equals_zero_constructed {S I : Nat}
    (initialState : state_vector_t S) (startTime finalTime : scalar_t)
    (tT : scalar_array_t) (sT : state_vector_array_t S) (iT : input_vector_array_t I)
    (concatOutput : Bool) :
    SystemOperatingPoint.mkDefault S I =
      SystemOperatingPoint.mkOperatingPoint (fun _ => 0) (fun _ => 0) ∧
    (SystemOperatingPoint.mkDefault S I).getSystemOperatingTrajectories
        initialState startTime finalTime tT sT iT concatOutput =
      (SystemOperatingPoint.mkOperatingPoint (fun _ => (0 : Rat))
          (fun _ => (0 : Rat))).getSystemOperatingTrajectories
        initialState startTime finalTime tT sT iT concatOutput :=
  ⟨rfl, rfl⟩

/-- Counterexample to claim C7 as stated: with `concatOutput = true`,
`startTime = 3 ≤ 4 = finalTime`, prior containers of equal length 2 and every
pre-existing time value `≤ startTime`, the resulting time sequence
`[2, 1, 3, 4]` is not non-decreasing, because the pre-existing time sequence
`[2, 1]` was itself not non-decreasing (a condition the claim omits). -/
theorem C7_counterexample_prior_unsorted :
    (3 : scalar_t) ≤ 4 ∧
    (∀ t ∈ [(2 : scalar_t), 1], t ≤ 3) ∧
    [(2 : scalar_t), 1].length = [exState, exState].length ∧
    [(2 : scalar_t), 1].length = [exInput, exInput].length ∧
    ¬ List.Chain' (· ≤ ·)
      ((exPoint.getSystemOperatingTrajectories exState 3 4 [2, 1]
          [exState, exState] [exInput, exInput] true).timeTrajectory) := by
  refine ⟨by norm_num, by norm_num, rfl, rfl, ?_⟩
  have hres : (exPoint.getSystemOperatingTrajectories exState 3 4 [2, 1]
      [exState, exState] [exInput, exInput] true).timeTrajectory =
      [2, 1, 3, 4] := rfl
  rw [hres]
  intro hchain
  have h21 : (2 : scalar_t) ≤ 1 := List.chain'_cons.mp hchain |>.1
  norm_num at h21

/-- Claim C7, amended: `getSystemOperatingTrajectories` preserves the
trajectory invariant: if the three containers have equal lengths before the
call they have equal lengths after it; and if `startTime ≤ finalTime` and
either `concatOutput = false`, or `concatOutput = true` with the pre-existing
time sequence non-decreasing and every pre-existing time value `≤ startTime`,
the resulting time sequence is non-decreasing. -/
theorem C7_invariant_preserved {S I : Nat} (pt : SystemOperatingPoint S I)
    (initialState : state_vector_t S) (startTime finalTime : scalar_t)
    (tT : scalar_array_t) (sT : state_vector_array_t S) (iT : input_vector_array_t I)
    (concatOutput : Bool) :
    (tT.length = sT.length → tT.length = iT.length →
      ((pt.getSystemOperatingTrajectories initialState startTime finalTime tT sT iT
          concatOutput).timeTrajectory.length =
        (pt.getSystemOperatingTrajectories initialState startTime finalTime tT sT iT
          concatOutput).stateTrajectory.length ∧
       (pt.getSystemOperatingTrajectories initialState startTime finalTime tT sT iT
          concatOutput).timeTrajectory.length =
        (pt.getSystemOperatingTrajectories initialState startTime finalTime tT sT iT
          concatOutput).inputTrajectory.length)) ∧
    (startTime ≤ finalTime →
      (concatOutput = false ∨
        (List.Chain' (· ≤ ·) tT ∧ ∀ t ∈ tT, t ≤ startTime)) →
      List.Chain' (· ≤ ·)
        (pt.getSystemOperatingTrajectories initialState startTime finalTime tT sT iT
          concatOutput).timeTrajectory) := by
  cases concatOutput with
  | false =>
      refine ⟨fun _ _ => ⟨rfl, rfl⟩, fun hst _ => ?_⟩
      simpa [SystemOperatingPoint.getSystemOperatingTrajectories,
        List.chain'_cons] using hst
  | true =>
      constructor
      · intro h₁ h₂
        constructor <;>
          simp [SystemOperatingPoint.getSystemOperatingTrajectories, h₁, h₂] <;>
          omega
      · intro hst hc
        rcases hc with hc | ⟨hsorted, hall⟩
        · exact absurd hc (by simp)
        have hres : (pt.getSystemOperatingTrajectories initialState startTime finalTime
            tT sT iT true).timeTrajectory = tT ++ [startTime, finalTime] := rfl
        rw [hres]
        refine List.Chain'.append hsorted ?_ ?_
        · simpa [List.chain'_cons] using hst
        · intro x hx y hy
          have hxmem : x ∈ tT := by
            rcases List.mem_getLast?_eq_getLast hx with ⟨hne, hxeq⟩
            exact hxeq ▸ List.getLast_mem hne
          have hy' : startTime = y := by simpa using hy
          exact hy' ▸ hall x hxmem

/-- Witness for the amended C7: example instance, prior time sequence `[1, 2]`
(non-decreasing, all values `≤ 3`), interval `[3, 4]`, `concatOutput = true`. -/
theorem C7_invariant_preserved_witness :
    ([(1 : scalar_t), 2].length = [exState, exState].length ∧
     [(1 : scalar_t), 2].length = [exInput, exInput].length ∧
     (3 : scalar_t) ≤ 4 ∧
     (true = false ∨
       (List.Chain' (· ≤ ·) [(1 : scalar_t), 2] ∧
        ∀ t ∈ [(1 : scalar_t), 2], t ≤ 3))) ∧
    (((exPoint.getSystemOperatingTrajectories exState 3 4 [1, 2]
          [exState, exState] [exInput, exInput] true).timeTrajectory.length =
        (exPoint.getSystemOperatingTrajectories exState 3 4 [1, 2]
          [exState, exState] [exInput, exInput] true).stateTrajectory.length ∧
      (exPoint.getSystemOperatingTrajectories exState 3 4 [1, 2]
          [exState, exState] [exInput, exInput] true).timeTrajectory.length =
        (exPoint.getSystemOperatingTrajectories exState 3 4 [1, 2]
          [exState, exState] [exInput, exInput] true).inputTrajectory.length) ∧
     List.Chain' (· ≤ ·)
       (exPoint.getSystemOperatingTrajectories exState 3 4 [1, 2]
         [exState, exState] [exInput, exInput] true).timeTrajectory) :=
  ⟨⟨rfl, rfl, by norm_num,
    Or.inr ⟨by norm_num [List.chain'_cons], by norm_num⟩⟩,
   (C7_invariant_preserved exPoint exState 3 4 [1, 2] [exState, exState]
       [exInput, exInput] true).1 rfl rfl,
   (C7_invariant_preserved exPoint exState 3 4 [1, 2] [exState, exState]
       [exInput, exInput] true).2 (by norm_num)
     (Or.inr ⟨by norm_num [List.chain'_cons], by norm_num⟩)⟩

/-- Claim C8: an instance on which `initializeModel` has never been called is
unbound, yet `getSystemOperatingTrajectories` completes normally on it and
produces the same output as on a bound instance with the same operating-point
values and the same arguments; the mode-switch lookup is never dereferenced. -/
theorem C8_unbound_instance_safe {S I : Nat}
    (s : state_vector_t S) (i : input_vector_t I)
    (lrm : LogicRulesMachine) (pIdx : Nat) (algName : Option String)
    (initialState : state_vector_t S) (startTime finalTime : scalar_t)
    (tT : scalar_array_t) (sT : state_vector_array_t S) (iT : input_vector_array_t I)
    (concatOutput : Bool) :
    (SystemOperatingPoint.mkOperatingPoint s i).boundLogicRules = none ∧
    (SystemOperatingPoint.mkOperatingPoint s i).boundPartitionIndex = none ∧
    ((SystemOperatingPoint.mkOperatingPoint s i).getSystemOperatingTrajectories
        initialState startTime finalTime tT sT iT concatOutput).timeTrajectory =
      (((SystemOperatingPoint.mkOperatingPoint s i).initializeModel lrm pIdx
          algName).getSystemOperatingTrajectories
        initialState startTime finalTime tT sT iT concatOutput).timeTrajectory ∧
    ((SystemOperatingPoint.mkOperatingPoint s i).getSystemOperatingTrajectories
        initialState startTime finalTime tT sT iT concatOutput).stateTrajectory =
      (((SystemOperatingPoint.mkOperatingPoint s i).initializeModel lrm pIdx
          algName).getSystemOperatingTrajectories
        initialState startTime finalTime tT sT iT concatOutput).stateTrajectory ∧
    ((SystemOperatingPoint.mkOperatingPoint s i).getSystemOperatingTrajectories
        initialState startTime finalTime tT sT iT concatOutput).inputTrajectory =
      (((SystemOperatingPoint.mkOperatingPoint s i).initializeModel lrm pIdx
          algName).getSystemOperatingTrajectories
        initialState startTime finalTime tT sT iT concatOutput).inputTrajectory :=
  ⟨rfl, rfl, rfl, rfl, rfl⟩

/-- Claim C9: neither `getSystemOperatingTrajectories` nor `initializeModel`
changes `stateOperatingPoint_` or `inputOperatingPoint_`; the former in fact
leaves the whole object value unchanged. -/
theorem C9_operating_point_never_mutated {S I : Nat} (pt : SystemOperatingPoint S I)
    (lrm : LogicRulesMachine) (pIdx : Nat) (algName : Option String)
    (initialState : state_vector_t S) (startTime finalTime : scalar_t)
    (tT : scalar_array_t) (sT : state_vector_array_t S) (iT : input_vector_array_t I)
    (concatOutput : Bool) :
    (pt.initializeModel lrm pIdx algName).stateOperatingPoint_ =
      pt.stateOperatingPoint_ ∧
    (pt.initializeModel lrm pIdx algName).inputOperatingPoint_ =
      pt.inputOperatingPoint_ ∧
    (pt.getSystemOperatingTrajectories initialState startTime finalTime tT sT iT
        concatOutput).self = pt :=
  ⟨rfl, rfl, rfl⟩

/-- Claim C10: for `startTime > finalTime` the call completes normally: it
appends `startTime` then `finalTime` in that order (no fail-fast, no
reordering of the bounds), the result is nonempty, and with
`concatOutput = false` the resulting time sequence is strictly decreasing. -/
theorem C10_reversed_interval_not_rejected {S I : Nat} (pt : SystemOperatingPoint S I)
    (initialState : state_vector_t S) (startTime finalTime : scalar_t)
    (tT : scalar_array_t) (sT : state_vector_array_t S) (iT : input_vector_array_t I)
    (concatOutput : Bool)
    (h : finalTime < startTime) :
    (pt.getSystemOperatingTrajectories initialState startTime finalTime tT sT iT
        concatOutput).timeTrajectory =
      (if concatOutput = false then [] else tT) ++ [startTime, finalTime] ∧
    (pt.getSystemOperatingTrajectories initialState startTime finalTime tT sT iT
        concatOutput).timeTrajectory ≠ [] ∧
    (concatOutput = false →
      List.Chain' (· > ·)
        (pt.getSystemOperatingTrajectories initialState startTime finalTime tT sT iT
          concatOutput).timeTrajectory) := by
  refine ⟨rfl, by simp [SystemOperatingPoint.getSystemOperatingTrajectories], ?_⟩
  intro hcat
  subst hcat
  simpa [SystemOperatingPoint.getSystemOperatingTrajectories,
    List.chain'_cons] using h

/-- Witness for C10: example instance, `startTime = 5 > 3 = finalTime`,
`concatOutput = false`. -/
theorem C10_reversed_interval_not_rejected_witness :
    (3 : scalar_t) < 5 ∧
    ((exPoint.getSystemOperatingTrajectories exState 5 3 [9] [exState] [exInput]
        false).timeTrajectory =
      (if false = false then [] else [(9 : scalar_t)]) ++ [5, 3] ∧
     (exPoint.getSystemOperatingTrajectories exState 5 3 [9] [exState] [exInput]
        false).timeTrajectory ≠ [] ∧
     (false = false →
       List.Chain' (· > ·)
         (exPoint.getSystemOperatingTrajectories exState 5 3 [9] [exState] [exInput]
           false).timeTrajectory)) :=
  ⟨by norm_num,
   C10_reversed_interval_not_rejected exPoint exState 5 3 [9] [exState] [exInput]
     false (by norm_num)⟩

end OCS2
